import Mathlib

/-!
Shallow embedding of the order/store persistence core of the repository:
the fee-simulation logic and `handleGenerateLink` of
`src/components/AdminDashboard.tsx`, the `db` client with its local-cache
fallback paths from `src/types.ts` (second section of that file), and the
Express route handlers of the backend (`src/unnamed/part_000`).

Monetary values and other JS numbers are modelled as rationals (`ℚ`);
JS `toFixed(1)` is modelled as decimal rounding on rationals followed by
printing.  Timestamps and ids are opaque strings supplied by the caller
(the embedding threads `now` / generated ids explicitly).  The remote
MongoDB collection and the localStorage cache are both modelled as Lean
lists of orders; `localStorage.getItem` / `JSON.parse` are modelled as
explicit function parameters so that missing and corrupt cache states are
expressible.
-/

/-- The `OrderStatus` union type of `src/types.ts`. -/
inductive OrderStatus where
  | pending
  | completed
  | expired
  | cancelled
  | refunded
deriving DecidableEq, Repr

/-- The `Store` interface of `src/types.ts`.  Optional fields are `Option`s. -/
structure Store where
  id : String
  name : String
  description : Option String := none
  apiKey : Option String := none
  pixFeePercentage : Option ℚ := none
  pixFeeFixed : Option ℚ := none
  createdAt : String
deriving DecidableEq, Repr

/-- The `Order` interface of `src/types.ts` (`PaymentIntent` plus
`PixGoCustomer` plus `updatedAt`). -/
structure Order where
  id : String
  amount : ℚ
  description : String
  createdAt : String
  status : OrderStatus
  pixgo_payment_id : Option String := none
  qr_code : Option String := none
  qr_image_url : Option String := none
  store_id : Option String := none
  store_name : Option String := none
  customer_name : Option String := none
  customer_cpf : Option String := none
  customer_email : Option String := none
  customer_phone : Option String := none
  customer_address : Option String := none
  updatedAt : String
deriving DecidableEq, Repr

/-- Result shape of the metrics computation (`db.getMetrics` fallback and
the `/api/dashboard/metrics` handler): `conversionRate` is a string, as in
the source, where it is produced by `toFixed(1)` or is the literal `'0.0'`. -/
structure Metrics where
  totalOrders : Nat
  totalRevenue : ℚ
  pendingOrders : Nat
  conversionRate : String
deriving DecidableEq, Repr

/-- JS `Number.prototype.toFixed(1)` on a non-negative rational: round to
the nearest tenth (ties toward the larger value, per ECMAScript) and print
with exactly one decimal digit. -/
def toFixed1 (q : ℚ) : String :=
  let n : ℤ := Rat.floor (q * 10 + 1 / 2)
  toString (n / 10) ++ "." ++ toString (n % 10)

/-- The fee-simulation record built by the `useEffect` in
`src/components/AdminDashboard.tsx` (lines 61-102). -/
structure FeeSimulation where
  fee : ℚ
  net : ℚ
  isValid : Bool
  message : String
deriving DecidableEq, Repr

/-- The validity/fee computation of the fee-simulation `useEffect`
(`src/components/AdminDashboard.tsx`, lines 77-100), for an input that
parsed to a number `val`: the bounds check sets `isValid`/`message`, then
the fee is computed unconditionally by the two-bracket schedule, and
`net = val - fee`. -/
def evaluateFee (val : ℚ) : FeeSimulation :=
  let validityPair : Bool × String :=
    if val < 10 then (false, "Valor mínimo por transação é R$ 10,00")
    else if val > 6000 then (false, "Valor máximo por transação é R$ 6.000,00")
    else (true, "")
  let fee : ℚ := if val < 50 then val * (2 / 100) + 1 else val * (2 / 100)
  { fee := fee, net := val - fee, isValid := validityPair.1, message := validityPair.2 }

/-- Local-cache read helper `getLocalOrders` of `src/types.ts` (lines
88-93): read the raw string under the orders key, return `[]` when the key
is absent or the stored string is falsy (empty), parse otherwise, and
return `[]` when the parse throws (the `catch` branch).  `getItem` models
`localStorage.getItem` and `parse` models `JSON.parse` (with `none` for a
parse exception). -/
def getLocalOrders (getItem : String → Option String)
    (parse : String → Option (List Order)) : List Order :=
  match getItem "7dbappe_orders_db" with
  | none => []
  | some data =>
      if data = "" then []
      else
        match parse data with
        | some orders => orders
        | none => []

/-- Local-cache read helper `getLocalStores` of `src/types.ts` (lines
95-100), identical in structure to `getLocalOrders` but for the stores key. -/
def getLocalStores (getItem : String → Option String)
    (parse : String → Option (List Store)) : List Store :=
  match getItem "7dbappe_stores_db" with
  | none => []
  | some data =>
      if data = "" then []
      else
        match parse data with
        | some stores => stores
        | none => []

/-- Fallback branch of `db.saveOrder` (`src/types.ts`, lines 184-197):
build `toSave` with `updatedAt` reset to the current time, then replace
the first cached order with the same `id` (the `findIndex` hit) or push
`toSave` at the end.  Returns the saved entity and the new cache contents. -/
def saveOrderLocal (order : Order) (now : String) (orders : List Order) :
    Order × List Order :=
  let toSave : Order := { order with updatedAt := now }
  match orders.findIdx? (fun o => o.id = order.id) with
  | some idx => (toSave, orders.set idx toSave)
  | none => (toSave, orders ++ [toSave])

/-- Fallback branch of `db.getOrderById` (`src/types.ts`, lines 174-177):
first cached order with the given `id`, if any. -/
def getOrderByIdLocal (id : String) (orders : List Order) : Option Order :=
  orders.find? (fun o => o.id = id)

/-- Fallback branch of `db.updateStatus` (`src/types.ts`, lines 204-212):
find the first cached order with the given `id` and, when present, mutate
its `status` and `updatedAt` in place (the rewritten cache); when absent,
nothing is written and no error is produced. -/
def updateStatusLocal (id : String) (status : OrderStatus) (now : String) :
    List Order → List Order
  | [] => []
  | o :: rest =>
      if o.id = id then { o with status := status, updatedAt := now } :: rest
      else o :: updateStatusLocal id status now rest

/-- Fallback branch of `db.getMetrics` (`src/types.ts`, lines 222-240):
scope the cached orders by `store_id` when a (truthy) `storeId` is given,
then count, sum completed revenue, count pending, and format the
conversion rate.  JS truthiness: a `null`/`undefined` or empty-string
`storeId` applies no filter. -/
def getMetricsLocal (storeId : Option String) (cache : List Order) : Metrics :=
  let orders : List Order :=
    match storeId with
    | some sid => if sid = "" then cache else cache.filter (fun o => o.store_id = some sid)
    | none => cache
  let totalOrders : Nat := orders.length
  let completedOrders : List Order := orders.filter (fun o => o.status = OrderStatus.completed)
  let totalRevenue : ℚ := completedOrders.foldl (fun acc curr => acc + curr.amount) 0
  let pendingOrders : Nat := (orders.filter (fun o => o.status = OrderStatus.pending)).length
  let conversionRate : String :=
    if totalOrders > 0 then toFixed1 (((completedOrders.length : ℚ) / (totalOrders : ℚ)) * 100)
    else "0.0"
  { totalOrders := totalOrders, totalRevenue := totalRevenue,
    pendingOrders := pendingOrders, conversionRate := conversionRate }

/-- Whether an order document matches the Mongo query built from the
optional `storeId` request parameter (`const query = storeId ?
\x7b store_id: storeId \x7d : \x7b\x7d` in `src/unnamed/part_000`): with a truthy
`storeId` the document's `store_id` field must equal it, otherwise every
document matches. -/
def queryMatches (storeId : Option String) (o : Order) : Bool :=
  match storeId with
  | some sid => if sid = "" then true else o.store_id = some sid
  | none => true

/-- The `GET /api/dashboard/metrics` handler (`src/unnamed/part_000`,
lines 167-197): `countDocuments` over the scope query, a `$match`/`$sum`
aggregate over completed orders in scope (empty aggregate result means
revenue `0`), `countDocuments` for pending and completed, and the same
`toFixed(1)` conversion-rate formatting with the `'0.0'` guard. -/
def metricsHandler (storeId : Option String) (docs : List Order) : Metrics :=
  let totalOrders : Nat := (docs.filter (queryMatches storeId)).length
  let pendingOrders : Nat :=
    (docs.filter (fun o => queryMatches storeId o && o.status = OrderStatus.pending)).length
  let completedDocs : List Order :=
    docs.filter (fun o => queryMatches storeId o && o.status = OrderStatus.completed)
  let totalRevenue : ℚ :=
    if completedDocs.length > 0 then completedDocs.foldl (fun acc curr => acc + curr.amount) 0
    else 0
  let completedCount : Nat := completedDocs.length
  let conversionRate : String :=
    if totalOrders > 0 then toFixed1 (((completedCount : ℚ) / (totalOrders : ℚ)) * 100)
    else "0.0"
  { totalOrders := totalOrders, totalRevenue := totalRevenue,
    pendingOrders := pendingOrders, conversionRate := conversionRate }

/-- The `POST /api/orders` handler (`src/unnamed/part_000`, lines
134-149): `findOneAndUpdate` on `id` with `upsert: true` and the full
request body plus a fresh `updatedAt` — replace the matched document or
insert a new one, returning the updated document. -/
def mongoUpsertOrder (order : Order) (now : String) (docs : List Order) :
    Order × List Order :=
  let updated : Order := { order with updatedAt := now }
  match docs.findIdx? (fun o => o.id = order.id) with
  | some idx => (updated, docs.set idx updated)
  | none => (updated, docs ++ [updated])

/-- An HTTP response of the backend status route: status code plus JSON
body (`none` models a JSON `null` body). -/
structure PatchResponse where
  statusCode : Nat
  body : Option Order
deriving DecidableEq, Repr

/-- The `PATCH /api/orders/:id/status` handler (`src/unnamed/part_000`,
lines 152-164): `findOneAndUpdate` on `id` setting `status` and
`updatedAt` (no upsert); the response is `res.json(order)`, which is a 200
with the updated document, or a 200 with a `null` body when no document
matched. -/
def patchStatusHandler (id : String) (status : OrderStatus) (now : String)
    (docs : List Order) : PatchResponse × List Order :=
  match docs.findIdx? (fun o => o.id = id) with
  | some idx =>
      match docs[idx]? with
      | some doc =>
          let updated : Order := { doc with status := status, updatedAt := now }
          ({ statusCode := 200, body := some updated }, docs.set idx updated)
      | none => ({ statusCode := 200, body := none }, docs)
  | none => ({ statusCode := 200, body := none }, docs)

/-- State of both persistence targets: the remote Mongo collection and
the localStorage cache, each a list of orders. -/
structure DbState where
  remote : List Order
  cache : List Order
deriving DecidableEq, Repr

/-- `db.saveOrder` (`src/types.ts`, lines 180-199): attempt the remote
`POST /api/orders` first; on transport failure (modelled by
`remoteUp = false`) fall back to the local-cache upsert.  Either way the
saved entity is returned. -/
def dbSaveOrder (remoteUp : Bool) (order : Order) (now : String) (st : DbState) :
    Order × DbState :=
  if remoteUp then
    let r := mongoUpsertOrder order now st.remote
    (r.1, { st with remote := r.2 })
  else
    let r := saveOrderLocal order now st.cache
    (r.1, { st with cache := r.2 })

/-- Result of `handleGenerateLink`: either the validation alert fired and
the handler returned early, or an order was created and saved. -/
inductive GenResult where
  | alerted (msg : String)
  | created (saved : Order)
deriving DecidableEq, Repr

/-- `handleGenerateLink` of `src/components/AdminDashboard.tsx` (lines
169-196): parse the amount (`none` models a `NaN` parse), reject amounts
below 10 or above 6000 with the alert and no further action, otherwise
build the new pending order (fresh id and `now` supplied by the caller,
description defaulting by JS truthiness, store snapshot fields from the
selected store) and persist it via `db.saveOrder`. -/
def handleGenerateLink (remoteUp : Bool) (amount : Option ℚ) (description : String)
    (selectedStore : Option Store) (freshId : String) (now : String)
    (st : DbState) : GenResult × DbState :=
  match amount with
  | none => (GenResult.alerted "O valor deve estar entre R$ 10,00 e R$ 6.000,00", st)
  | some val =>
      if val < 10 ∨ val > 6000 then
        (GenResult.alerted "O valor deve estar entre R$ 10,00 e R$ 6.000,00", st)
      else
        let newOrder : Order :=
          { id := freshId, amount := val,
            description := if description = "" then "Link Rápido" else description,
            createdAt := now, updatedAt := now, status := OrderStatus.pending,
            store_id := selectedStore.map Store.id,
            store_name := selectedStore.map Store.name }
        let r := dbSaveOrder remoteUp newOrder now st
        (GenResult.created r.1, r.2)

/-- The `estimatedFees` derivation of `src/components/AdminDashboard.tsx`
(lines 207-209): the fee formula applies only when `totalRevenue > 0` and
a store is selected, and is `0` otherwise; absent per-store fee fields
default to `0` by JS `|| 0`. -/
def estimatedFees (metrics : Metrics) (selectedStore : Option Store) : ℚ :=
  match selectedStore with
  | some store =>
      if metrics.totalRevenue > 0 then
        metrics.totalRevenue * (store.pixFeePercentage.getD 0) / 100 +
          (metrics.totalOrders : ℚ) * (store.pixFeeFixed.getD 0)
      else 0
  | none => 0

/-- The `estimatedNet` derivation of `src/components/AdminDashboard.tsx`
(line 211). -/
def estimatedNet (metrics : Metrics) (selectedStore : Option Store) : ℚ :=
  metrics.totalRevenue - estimatedFees metrics selectedStore

/-- Replace the first element satisfying `p` by `x`, or append `x` when no
element satisfies `p`: the recursive reading of the `findIndex`-then-set /
push pattern shared by `db.saveOrder` and the Mongo order upsert. -/
def upsertFirst {α : Type} (p : α → Bool) (x : α) : List α → List α
  | [] => [x]
  | o :: rest => if p o then x :: rest else o :: upsertFirst p x rest

/-- Concrete order used to instantiate theorems on sample data: only the
fields relevant to the verified operations vary. -/
def mkOrder (i : String) (amount : ℚ) (status : OrderStatus)
    (sid : Option String) : Order :=
  { id := i, amount := amount, description := "", createdAt := "t0",
    status := status, store_id := sid, updatedAt := "t0" }

/-- The sample data set of the specification scenario: one completed order
of 100, one pending order of 20, one completed order of 5000, no store
scope. -/
def demoOrders : List Order :=
  [mkOrder "a" 100 OrderStatus.completed none,
   mkOrder "b" 20 OrderStatus.pending none,
   mkOrder "c" 5000 OrderStatus.completed none]

/-- A metrics value with zero revenue but a positive order count. -/
def zeroRevenueMetrics : Metrics :=
  { totalOrders := 5, totalRevenue := 0, pendingOrders := 5, conversionRate := "0.0" }

/-- A store with a positive fixed fee and no percentage fee. -/
def fixedFeeStore : Store :=
  { id := "s1", name := "Loja", pixFeeFixed := some 2, createdAt := "t0" }

/-- Bridge from the executable `Rat.floor` used in `toFixed1` to the
`Int.floor` of the ordered-field API. -/
lemma ratFloor_eq (q : ℚ) : Rat.floor q = ⌊q⌋ := by
  rw [Rat.floor_def', Rat.floor_def]

/-- Evaluation rule for `toFixed1` once the rounded integer is known. -/
lemma toFixed1_eq (q : ℚ) (n : ℤ) (h : ⌊q * 10 + 1 / 2⌋ = n) :
    toFixed1 q = toString (n / 10) ++ "." ++ toString (n % 10) := by
  unfold toFixed1
  rw [ratFloor_eq, h]

/-- The `findIndex`/`set`-or-push combination equals `upsertFirst`. -/
lemma findIdxSet_eq_upsertFirst {α : Type} (p : α → Bool) (x : α) (l : List α) :
    (match l.findIdx? p with
      | some idx => l.set idx x
      | none => l ++ [x]) = upsertFirst p x l := by
  induction l with
  | nil => simp [upsertFirst]
  | cons o rest ih =>
    rw [List.findIdx?_cons]
    cases hp : p o with
    | true =>
      simp [upsertFirst, hp]
    | false =>
      simp only [Bool.false_eq_true, if_false, List.findIdx?_succ]
      cases hr : rest.findIdx? p with
      | none =>
        simp only [hr] at ih
        simp [upsertFirst, hp, hr, ih]
      | some j =>
        simp only [hr] at ih
        simp [upsertFirst, hp, hr, ih]

/-- `saveOrderLocal` in terms of `upsertFirst`. -/
lemma saveOrderLocal_eq (order : Order) (now : String) (l : List Order) :
    saveOrderLocal order now l =
      ({ order with updatedAt := now },
        upsertFirst (fun o => o.id = order.id) { order with updatedAt := now } l) := by
  unfold saveOrderLocal
  rw [← findIdxSet_eq_upsertFirst]
  cases h : l.findIdx? (fun o => decide (o.id = order.id)) <;> simp [h]

/-- The Mongo order upsert of the backend route coincides with the
local-cache upsert of `db.saveOrder`. -/
lemma mongoUpsertOrder_eq (order : Order) (now : String) (l : List Order) :
    mongoUpsertOrder order now l = saveOrderLocal order now l := rfl

/-- After an upsert of a matching element, the first match is that element. -/
lemma upsertFirst_find? {α : Type} (p : α → Bool) (x : α) (hx : p x = true)
    (l : List α) : (upsertFirst p x l).find? p = some x := by
  induction l with
  | nil => simp [upsertFirst, hx]
  | cons o rest ih =>
    cases hp : p o with
    | true => simp [upsertFirst, hp, hx]
    | false => simp [upsertFirst, hp, ih]

/-- An upsert of a matching element leaves exactly one match when the list
had at most one. -/
lemma upsertFirst_countP {α : Type} (p : α → Bool) (x : α) (hx : p x = true)
    (l : List α) (h : l.countP p ≤ 1) : (upsertFirst p x l).countP p = 1 := by
  induction l with
  | nil => simp [upsertFirst, hx]
  | cons o rest ih =>
    cases hp : p o with
    | true =>
      rw [List.countP_cons_of_pos _ _ hp] at h
      have h0 : rest.countP p = 0 := by omega
      simp [upsertFirst, hp, hx, List.countP_cons_of_pos, h0]
    | false =>
      rw [List.countP_cons_of_neg _ _ (by simp [hp])] at h
      simp [upsertFirst, hp, List.countP_cons_of_neg, ih h]

/-- Folding `+ amount` over orders is summing the mapped amounts. -/
lemma foldl_add_amount (l : List Order) (a : ℚ) :
    l.foldl (fun acc curr => acc + curr.amount) a = a + (l.map Order.amount).sum := by
  induction l generalizing a with
  | nil => simp
  | cons o rest ih => simp [ih, add_assoc]

/-- C2: for every numeric amount, the fee simulation computes
`fee = amount*0.02 + 1.00` when `amount < 50` and `fee = amount*0.02`
otherwise, and `net = amount - fee`; the formulas hold for every rational
amount, in particular also for invalid amounts below 10 or above 6000. -/
theorem fee_formula (val : ℚ) :
    (evaluateFee val).fee =
        (if val < 50 then val * (2 / 100) + 1 else val * (2 / 100))
      ∧ (evaluateFee val).net = val - (evaluateFee val).fee := by
  exact ⟨rfl, rfl⟩

/-- C3: the fee simulation marks an amount invalid exactly when it is
below 10 (with the minimum-violation message) or above 6000 (with the
maximum-violation message); in particular 9.99 and 6000.01 are invalid
while 10 and 6000 are valid. -/
theorem fee_validity (val : ℚ) :
    ((evaluateFee val).isValid = false ↔ (val < 10 ∨ val > 6000))
      ∧ (evaluateFee val).message =
          (if val < 10 then "Valor mínimo por transação é R$ 10,00"
           else if val > 6000 then "Valor máximo por transação é R$ 6.000,00"
           else "")
      ∧ (evaluateFee (999 / 100)).isValid = false
      ∧ (evaluateFee 10).isValid = true
      ∧ (evaluateFee 6000).isValid = true
      ∧ (evaluateFee (600001 / 100)).isValid = false := by
  refine ⟨?_, ?_, by norm_num [evaluateFee], by norm_num [evaluateFee],
    by norm_num [evaluateFee], by norm_num [evaluateFee]⟩
  · unfold evaluateFee
    by_cases h1 : val < 10
    · simp [h1]
    · by_cases h2 : val > 6000
      · simp [h1, h2]
      · simp [h1, h2]
  · unfold evaluateFee
    by_cases h1 : val < 10
    · simp [h1]
    · by_cases h2 : val > 6000
      · simp [h1, h2]
      · simp [h1, h2]

/-- C7: saving an order through the local-cache path of `db.saveOrder`
and reading it back through the local-cache path of `db.getOrderById`
returns a stored entity that agrees with the saved order on every field
except possibly `updatedAt` (which the save path resets to the save time). -/
theorem save_then_get_roundtrip (order : Order) (now : String) (cache : List Order) :
    ∃ stored : Order,
      getOrderByIdLocal order.id (saveOrderLocal order now cache).2 = some stored
        ∧ stored.id = order.id
        ∧ stored.amount = order.amount
        ∧ stored.description = order.description
        ∧ stored.createdAt = order.createdAt
        ∧ stored.status = order.status
        ∧ stored.pixgo_payment_id = order.pixgo_payment_id
        ∧ stored.qr_code = order.qr_code
        ∧ stored.qr_image_url = order.qr_image_url
        ∧ stored.store_id = order.store_id
        ∧ stored.store_name = order.store_name
        ∧ stored.customer_name = order.customer_name
        ∧ stored.customer_cpf = order.customer_cpf
        ∧ stored.customer_email = order.customer_email
        ∧ stored.customer_phone = order.customer_phone
        ∧ stored.customer_address = order.customer_address := by
  refine ⟨{ order with updatedAt := now }, ?_, rfl, rfl, rfl, rfl, rfl, rfl, rfl,
    rfl, rfl, rfl, rfl, rfl, rfl, rfl, rfl⟩
  rw [saveOrderLocal_eq]
  unfold getOrderByIdLocal
  exact upsertFirst_find? _ _ (by simp) cache

/-- C6: creating an order twice with the same id and different amounts —
through the local-cache branch of `db.saveOrder` and through the Mongo
upsert of `POST /api/orders` — leaves exactly one stored order with that
id, and that order carries the amount of the second call, provided the
store held at most one order with that id to begin with. -/
theorem save_twice_upsert (cache : List Order) (o1 o2 : Order) (now1 now2 : String)
    (hid : o1.id = o2.id)
    (hdup : cache.countP (fun o => o.id = o2.id) ≤ 1) :
    ((saveOrderLocal o2 now2 (saveOrderLocal o1 now1 cache).2).2.countP
          (fun o => o.id = o2.id) = 1
      ∧ ∃ stored : Order,
          (saveOrderLocal o2 now2 (saveOrderLocal o1 now1 cache).2).2.find?
              (fun o => o.id = o2.id) = some stored
            ∧ stored.amount = o2.amount)
    ∧ ((mongoUpsertOrder o2 now2 (mongoUpsertOrder o1 now1 cache).2).2.countP
          (fun o => o.id = o2.id) = 1
      ∧ ∃ stored : Order,
          (mongoUpsertOrder o2 now2 (mongoUpsertOrder o1 now1 cache).2).2.find?
              (fun o => o.id = o2.id) = some stored
            ∧ stored.amount = o2.amount) := by
  have key :
      (saveOrderLocal o2 now2 (saveOrderLocal o1 now1 cache).2).2.countP
          (fun o => o.id = o2.id) = 1
        ∧ ∃ stored : Order,
            (saveOrderLocal o2 now2 (saveOrderLocal o1 now1 cache).2).2.find?
                (fun o => o.id = o2.id) = some stored
              ∧ stored.amount = o2.amount := by
    rw [saveOrderLocal_eq, saveOrderLocal_eq]
    simp only [hid]
    have h1 : (upsertFirst (fun o => decide (o.id = o2.id))
        { o1 with updatedAt := now1, id := o2.id } cache).countP
          (fun o => decide (o.id = o2.id)) = 1 :=
      upsertFirst_countP _ _ (by simp) cache hdup
    constructor
    · exact upsertFirst_countP _ _ (by simp) _ (le_of_eq h1)
    · exact ⟨{ o2 with updatedAt := now2 }, upsertFirst_find? _ _ (by simp) _, rfl⟩
  exact ⟨key, by rw [mongoUpsertOrder_eq, mongoUpsertOrder_eq]; exact key⟩

/-- Witness for `save_twice_upsert`: two saves of id `a` with amounts 100
and then 200 into an empty cache leave a single order with id `a`. -/
theorem save_twice_upsert_witness :
    (saveOrderLocal (mkOrder "a" 200 OrderStatus.pending none) "t2"
        (saveOrderLocal (mkOrder "a" 100 OrderStatus.pending none) "t1" []).2).2.countP
      (fun o => o.id = (mkOrder "a" 200 OrderStatus.pending none).id) = 1 :=
  (save_twice_upsert [] (mkOrder "a" 100 OrderStatus.pending none)
    (mkOrder "a" 200 OrderStatus.pending none) "t1" "t2" rfl (by simp)).1.1

/-- C5 counterexample: transitioning an order id that is absent does NOT
report a not-found failure to the caller — the backend route answers 200
with a JSON `null` body (unlike the 404 responses of the lookup routes),
and the local fallback returns without any error value. -/
theorem transition_absent_counterexample :
    (patchStatusHandler "missing" OrderStatus.completed "t1" []).1.statusCode = 200
      ∧ (patchStatusHandler "missing" OrderStatus.completed "t1" []).1.body = none
      ∧ (patchStatusHandler "missing" OrderStatus.completed "t1" []).1.statusCode ≠ 404
      ∧ updateStatusLocal "missing" OrderStatus.completed "t1" [] = [] := by
  refine ⟨rfl, rfl, by decide, rfl⟩

/-- C5 (amended): for every order id absent from the store, the
status-transition operation has no side effect — the local cache is
unchanged and the backend collection is unchanged — but no NotFound error
is reported: the local path completes silently and the remote handler
responds 200 with a null body. -/
theorem transition_absent_no_side_effect (id : String) (status : OrderStatus)
    (now : String) (docs : List Order) (h : ∀ o ∈ docs, o.id ≠ id) :
    updateStatusLocal id status now docs = docs
      ∧ patchStatusHandler id status now docs =
          ({ statusCode := 200, body := none }, docs) := by
  constructor
  · induction docs with
    | nil => rfl
    | cons o rest ih =>
      have ho : o.id ≠ id := h o (by simp)
      have hrest : ∀ o ∈ rest, o.id ≠ id := fun x hx => h x (by simp [hx])
      simp [updateStatusLocal, ho, ih hrest]
  · unfold patchStatusHandler
    have hnone : docs.findIdx? (fun o => decide (o.id = id)) = none := by
      rw [List.findIdx?_eq_none_iff]
      intro x hx
      simp [h x hx]
    rw [hnone]

/-- Witness for `transition_absent_no_side_effect` at a concrete cache
holding one unrelated order. -/
theorem transition_absent_no_side_effect_witness :
    updateStatusLocal "zzz" OrderStatus.completed "t1"
        [mkOrder "a" 100 OrderStatus.pending none]
      = [mkOrder "a" 100 OrderStatus.pending none]
      ∧ patchStatusHandler "zzz" OrderStatus.completed "t1"
          [mkOrder "a" 100 OrderStatus.pending none]
        = ({ statusCode := 200, body := none },
            [mkOrder "a" 100 OrderStatus.pending none]) :=
  transition_absent_no_side_effect "zzz" OrderStatus.completed "t1"
    [mkOrder "a" 100 OrderStatus.pending none] (by simp [mkOrder])

/-- Filtering by a conjunction is sequential filtering. -/
lemma filter_and {α : Type} (q p : α → Bool) (l : List α) :
    l.filter (fun a => q a && p a) = (l.filter q).filter p := by
  induction l with
  | nil => rfl
  | cons o rest ih => cases hq : q o <;> cases hp : p o <;> simp [hq, hp, ih]

/-- The aggregate guard of the metrics route is redundant: an empty
completed set folds to revenue 0 anyway. -/
lemma revenue_guard (l : List Order) :
    (if l.length > 0 then l.foldl (fun acc curr => acc + curr.amount) (0 : ℚ) else 0)
      = l.foldl (fun acc curr => acc + curr.amount) 0 := by
  cases l <;> simp

/-- The remote metrics route and the local-cache metrics fallback compute
identical results on identical underlying order data. -/
lemma metricsHandler_eq_getMetricsLocal (storeId : Option String) (docs : List Order) :
    metricsHandler storeId docs = getMetricsLocal storeId docs := by
  have hscope : docs.filter (queryMatches storeId) =
      (match storeId with
        | some sid =>
            if sid = "" then docs else docs.filter (fun o => o.store_id = some sid)
        | none => docs) := by
    cases storeId with
    | none => simp [queryMatches]
    | some sid =>
        by_cases hs : sid = ""
        · simp [queryMatches, hs]
        · simp only [hs, if_neg]
          exact List.filter_congr (fun o _ => by simp [queryMatches, hs])
  unfold metricsHandler getMetricsLocal
  simp only [filter_and, revenue_guard, hscope]

/-- C8: for every underlying order data set and optional store scope, the
metrics computed by the `/api/dashboard/metrics` route and by the local
fallback branch of `db.getMetrics` agree on all four fields. -/
theorem metrics_fallback_equivalence (storeId : Option String) (docs : List Order) :
    metricsHandler storeId docs = getMetricsLocal storeId docs :=
  metricsHandler_eq_getMetricsLocal storeId docs

/-- C1: for every order list and optional store scope (scopes are store
ids, which are non-empty), both the local fallback of `db.getMetrics` and
the `/api/dashboard/metrics` route return the same metrics value, whose
`totalOrders` is the count of orders in scope, whose `totalRevenue` is the
sum of `amount` over exactly the completed orders in scope, whose
`pendingOrders` is the count of pending orders in scope, and whose
`conversionRate` is `(completedCount / totalOrders) * 100` formatted to
one decimal digit, the literal string `"0.0"` when `totalOrders` is 0. -/
theorem dashboard_metrics_fields (orders : List Order) (storeId : Option String)
    (h : storeId ≠ some "") :
    ∃ m : Metrics,
      getMetricsLocal storeId orders = m
      ∧ metricsHandler storeId orders = m
      ∧ m.totalOrders = (orders.filter (fun o =>
          match storeId with
          | some sid => decide (o.store_id = some sid)
          | none => true)).length
      ∧ m.totalRevenue = (((orders.filter (fun o =>
          match storeId with
          | some sid => decide (o.store_id = some sid)
          | none => true)).filter (fun o => decide (o.status = OrderStatus.completed))).map
            Order.amount).sum
      ∧ m.pendingOrders = ((orders.filter (fun o =>
          match storeId with
          | some sid => decide (o.store_id = some sid)
          | none => true)).filter (fun o => decide (o.status = OrderStatus.pending))).length
      ∧ m.conversionRate =
          (if (orders.filter (fun o =>
              match storeId with
              | some sid => decide (o.store_id = some sid)
              | none => true)).length = 0 then "0.0"
           else toFixed1
            ((((orders.filter (fun o =>
                match storeId with
                | some sid => decide (o.store_id = some sid)
                | none => true)).filter
                  (fun o => decide (o.status = OrderStatus.completed))).length : ℚ)
              / (((orders.filter (fun o =>
                match storeId with
                | some sid => decide (o.store_id = some sid)
                | none => true)).length : ℚ)) * 100)) := by
  cases storeId with
  | none =>
      refine ⟨getMetricsLocal none orders, rfl,
        metricsHandler_eq_getMetricsLocal none orders, ?_, ?_, ?_, ?_⟩
      · simp only [getMetricsLocal, List.filter_true]
      · simp only [getMetricsLocal, List.filter_true]
        rw [foldl_add_amount, zero_add]
      · simp only [getMetricsLocal, List.filter_true]
      · simp only [getMetricsLocal, List.filter_true]
        by_cases hn : orders.length = 0
        · simp [hn]
        · simp [hn, Nat.pos_of_ne_zero hn]
  | some sid =>
      have hs : sid ≠ "" := by
        intro e
        exact h (by rw [e])
      refine ⟨getMetricsLocal (some sid) orders, rfl,
        metricsHandler_eq_getMetricsLocal (some sid) orders, ?_, ?_, ?_, ?_⟩
      · simp only [getMetricsLocal, if_neg hs]
      · simp only [getMetricsLocal, if_neg hs]
        rw [foldl_add_amount, zero_add]
      · simp only [getMetricsLocal, if_neg hs]
      · simp only [getMetricsLocal, if_neg hs]
        by_cases hn :
            (orders.filter (fun o => decide (o.store_id = some sid))).length = 0
        · simp [hn]
        · simp [hn, Nat.pos_of_ne_zero hn]

/-- Witness for `dashboard_metrics_fields` on the specification scenario:
three orders (completed 100, pending 20, completed 5000), no scope, give
totals 3 / 5100 / 1 and conversion rate `"66.7"` on both paths. -/
theorem dashboard_metrics_fields_witness :
    getMetricsLocal none demoOrders =
        { totalOrders := 3, totalRevenue := 5100, pendingOrders := 1,
          conversionRate := "66.7" }
      ∧ metricsHandler none demoOrders =
        { totalOrders := 3, totalRevenue := 5100, pendingOrders := 1,
          conversionRate := "66.7" } := by
  obtain ⟨m, h1, h2, h3, h4, h5, h6⟩ :=
    dashboard_metrics_fields demoOrders none (by simp)
  have e3 : (demoOrders.filter (fun o =>
      match (none : Option String) with
      | some sid => decide (o.store_id = some sid)
      | none => true)).length = 3 := rfl
  have e4 : (((demoOrders.filter (fun o =>
      match (none : Option String) with
      | some sid => decide (o.store_id = some sid)
      | none => true)).filter (fun o => decide (o.status = OrderStatus.completed))).map
        Order.amount).sum = 5100 := by
    have hlist : (((demoOrders.filter (fun o =>
        match (none : Option String) with
        | some sid => decide (o.store_id = some sid)
        | none => true)).filter (fun o => decide (o.status = OrderStatus.completed))).map
          Order.amount) = [100, 5000] := rfl
    rw [hlist]
    norm_num [List.sum_cons, List.sum_nil]
  have e5 : ((demoOrders.filter (fun o =>
      match (none : Option String) with
      | some sid => decide (o.store_id = some sid)
      | none => true)).filter (fun o => decide (o.status = OrderStatus.pending))).length
        = 1 := rfl
  have ecomp : ((demoOrders.filter (fun o =>
      match (none : Option String) with
      | some sid => decide (o.store_id = some sid)
      | none => true)).filter (fun o => decide (o.status = OrderStatus.completed))).length
        = 2 := rfl
  have e6 : (if (demoOrders.filter (fun o =>
        match (none : Option String) with
        | some sid => decide (o.store_id = some sid)
        | none => true)).length = 0 then "0.0"
      else toFixed1
        ((((demoOrders.filter (fun o =>
            match (none : Option String) with
            | some sid => decide (o.store_id = some sid)
            | none => true)).filter
              (fun o => decide (o.status = OrderStatus.completed))).length : ℚ)
          / (((demoOrders.filter (fun o =>
            match (none : Option String) with
            | some sid => decide (o.store_id = some sid)
            | none => true)).length : ℚ)) * 100)) = "66.7" := by
    rw [e3, ecomp, if_neg (by decide)]
    have hq : ((2 : ℕ) : ℚ) / ((3 : ℕ) : ℚ) * 100 = 200 / 3 := by norm_num
    rw [hq, toFixed1_eq (200 / 3 : ℚ) 667 (by norm_num [Int.floor_eq_iff])]
    rfl
  have hm : m = { totalOrders := 3, totalRevenue := 5100, pendingOrders := 1,
                  conversionRate := "66.7" } := by
    obtain ⟨a, b, c, d⟩ := m
    simp only at h3 h4 h5 h6
    simp only [Metrics.mk.injEq]
    exact ⟨h3.trans e3, h4.trans e4, h5.trans e5, h6.trans e6⟩
  exact ⟨h1.trans hm, h2.trans hm⟩

/-- Behaviour of `db.saveOrder` on either target: it returns the order
with `updatedAt` reset, upserts it into the target that answered, and
leaves the other target untouched. -/
lemma dbSaveOrder_spec (remoteUp : Bool) (order : Order) (now : String) (st : DbState) :
    (dbSaveOrder remoteUp order now st).1 = { order with updatedAt := now }
      ∧ (if remoteUp then (dbSaveOrder remoteUp order now st).2.remote
          else (dbSaveOrder remoteUp order now st).2.cache)
        = upsertFirst (fun o => o.id = order.id) { order with updatedAt := now }
            (if remoteUp then st.remote else st.cache)
      ∧ (if remoteUp then (dbSaveOrder remoteUp order now st).2.cache = st.cache
          else (dbSaveOrder remoteUp order now st).2.remote = st.remote) := by
  cases remoteUp <;>
    simp [dbSaveOrder, mongoUpsertOrder_eq, saveOrderLocal_eq]

/-- C4: a generate-link request whose amount fails validation (not a
number, below 10, or above 6000) alerts and persists nothing on either
target; a request with a valid amount creates an order with status
`pending`, the freshly generated id, `createdAt` equal to `updatedAt`, the
requested amount, and the store snapshot fields copied from the selected
store, and persists exactly that order in the answering target (uniquely
so when the fresh id was not yet present), leaving the other target
untouched. -/
theorem generate_link_validation (remoteUp : Bool) (amount : Option ℚ)
    (description : String) (selectedStore : Option Store) (freshId now : String)
    (st : DbState) :
    ((amount = none ∨ ∃ v, amount = some v ∧ (v < 10 ∨ v > 6000)) →
        (handleGenerateLink remoteUp amount description selectedStore freshId now st).2 = st
          ∧ ∃ msg, (handleGenerateLink remoteUp amount description selectedStore
              freshId now st).1 = GenResult.alerted msg)
      ∧ (∀ v : ℚ, amount = some v → 10 ≤ v → v ≤ 6000 →
          ∃ saved : Order,
            (handleGenerateLink remoteUp amount description selectedStore
                freshId now st).1 = GenResult.created saved
              ∧ saved.status = OrderStatus.pending
              ∧ saved.id = freshId
              ∧ saved.createdAt = saved.updatedAt
              ∧ saved.amount = v
              ∧ saved.store_id = selectedStore.map Store.id
              ∧ saved.store_name = selectedStore.map Store.name
              ∧ (if remoteUp
                  then (handleGenerateLink remoteUp amount description selectedStore
                      freshId now st).2.remote
                  else (handleGenerateLink remoteUp amount description selectedStore
                      freshId now st).2.cache).find? (fun o => o.id = freshId) = some saved
              ∧ ((if remoteUp then st.remote else st.cache).countP
                    (fun o => o.id = freshId) = 0 →
                  (if remoteUp
                    then (handleGenerateLink remoteUp amount description selectedStore
                        freshId now st).2.remote
                    else (handleGenerateLink remoteUp amount description selectedStore
                        freshId now st).2.cache).countP (fun o => o.id = freshId) = 1)
              ∧ (if remoteUp
                  then (handleGenerateLink remoteUp amount description selectedStore
                      freshId now st).2.cache = st.cache
                  else (handleGenerateLink remoteUp amount description selectedStore
                      freshId now st).2.remote = st.remote)) := by
  constructor
  · rintro (rfl | ⟨v, rfl, hv⟩)
    · exact ⟨rfl, _, rfl⟩
    · simp only [handleGenerateLink]
      rw [if_pos hv]
      exact ⟨rfl, _, rfl⟩
  · rintro v rfl h10 h6000
    have hcond : ¬(v < 10 ∨ v > 6000) := by
      push_neg
      exact ⟨by linarith, by linarith⟩
    simp only [handleGenerateLink]
    rw [if_neg hcond]
    obtain ⟨hsaved, htarget, hother⟩ := dbSaveOrder_spec remoteUp
      { id := freshId, amount := v,
        description := if description = "" then "Link Rápido" else description,
        createdAt := now, updatedAt := now, status := OrderStatus.pending,
        store_id := selectedStore.map Store.id,
        store_name := selectedStore.map Store.name } now st
    refine ⟨_, rfl, ?_, ?_, ?_, ?_, ?_, ?_, ?_, ?_, ?_⟩
    · rw [hsaved]
    · rw [hsaved]
    · rw [hsaved]
    · rw [hsaved]
    · rw [hsaved]
    · rw [hsaved]
    · rw [htarget, hsaved]
      exact upsertFirst_find? _ _ (by simp) _
    · intro h0
      rw [htarget]
      exact upsertFirst_countP _ _ (by simp) _ (by rw [h0]; norm_num)
    · exact hother

/-- Witness for `generate_link_validation`: amount 5 alerts and leaves an
empty state untouched; amount 100 creates a pending order. -/
theorem generate_link_validation_witness :
    (handleGenerateLink false (some 5) "" none "id1" "t1"
        { remote := [], cache := [] }).2 = { remote := [], cache := [] }
      ∧ ∃ saved : Order,
          (handleGenerateLink false (some 100) "" none "id1" "t1"
              { remote := [], cache := [] }).1 = GenResult.created saved
            ∧ saved.status = OrderStatus.pending := by
  constructor
  · exact ((generate_link_validation false (some 5) "" none "id1" "t1"
      { remote := [], cache := [] }).1 (Or.inr ⟨5, rfl, Or.inl (by norm_num)⟩)).1
  · obtain ⟨saved, h1, h2, -⟩ := (generate_link_validation false (some 100) "" none
      "id1" "t1" { remote := [], cache := [] }).2 100 rfl (by norm_num) (by norm_num)
    exact ⟨saved, h1, h2⟩

/-- C9 counterexample: with zero revenue, five orders and a fixed fee of
2, the dashboard computes `estimatedFees = 0` while the claimed formula
gives `0 * 0 / 100 + 5 * 2 = 10` — the `totalRevenue > 0` guard zeroes the
fixed-fee part. -/
theorem estimated_fees_counterexample :
    estimatedFees zeroRevenueMetrics (some fixedFeeStore) = 0
      ∧ zeroRevenueMetrics.totalRevenue * ((fixedFeeStore.pixFeePercentage).getD 0) / 100
          + (zeroRevenueMetrics.totalOrders : ℚ) * ((fixedFeeStore.pixFeeFixed).getD 0)
        = 10
      ∧ (0 : ℚ) ≠ 10 := by
  refine ⟨?_, ?_, by norm_num⟩
  · simp [estimatedFees, zeroRevenueMetrics, fixedFeeStore]
  · simp only [zeroRevenueMetrics, fixedFeeStore]
    norm_num

/-- C9 (amended): `estimatedFees` equals
`totalRevenue * effectiveFeePercent/100 + totalOrders * effectiveFeeFixed`
only when a store is selected and `totalRevenue > 0`; it is `0` whenever
`totalRevenue` is not positive (even with positive order count and fixed
fee) or no store is selected; `estimatedNet` is always
`totalRevenue - estimatedFees`. -/
theorem estimated_fees_guarded (m : Metrics) (s : Store) (hrev : m.totalRevenue > 0) :
    estimatedFees m (some s)
        = m.totalRevenue * (s.pixFeePercentage.getD 0) / 100
          + (m.totalOrders : ℚ) * (s.pixFeeFixed.getD 0)
      ∧ (∀ m' : Metrics, ¬ m'.totalRevenue > 0 → estimatedFees m' (some s) = 0)
      ∧ (∀ m' : Metrics, estimatedFees m' none = 0)
      ∧ (∀ m' : Metrics, ∀ s' : Option Store,
          estimatedNet m' s' = m'.totalRevenue - estimatedFees m' s') := by
  refine ⟨?_, ?_, fun m' => rfl, fun m' s' => rfl⟩
  · simp [estimatedFees, if_pos hrev]
  · intro m' h
    simp [estimatedFees, if_neg h]

/-- Witness for `estimated_fees_guarded` at revenue 100 and two orders. -/
theorem estimated_fees_guarded_witness :
    estimatedFees ⟨2, 100, 0, "100.0"⟩ (some fixedFeeStore)
      = (⟨2, 100, 0, "100.0"⟩ : Metrics).totalRevenue
          * ((fixedFeeStore.pixFeePercentage).getD 0) / 100
        + ((⟨2, 100, 0, "100.0"⟩ : Metrics).totalOrders : ℚ)
          * ((fixedFeeStore.pixFeeFixed).getD 0) :=
  (estimated_fees_guarded ⟨2, 100, 0, "100.0"⟩ fixedFeeStore (by norm_num)).1

/-- C10: the local-cache read helpers are total over every cache state:
they return the parsed list when the stored text is present, non-empty and
parses, and the empty list when the key is absent, the stored text is
empty, or the parse throws (the caught-exception branch). -/
theorem local_reads_total (getItem : String → Option String)
    (parseOrders : String → Option (List Order))
    (parseStores : String → Option (List Store)) :
    (∀ s xs, getItem "7dbappe_orders_db" = some s → s ≠ "" →
        parseOrders s = some xs → getLocalOrders getItem parseOrders = xs)
      ∧ (getItem "7dbappe_orders_db" = none → getLocalOrders getItem parseOrders = [])
      ∧ (getItem "7dbappe_orders_db" = some "" →
          getLocalOrders getItem parseOrders = [])
      ∧ (∀ s, getItem "7dbappe_orders_db" = some s → parseOrders s = none →
          getLocalOrders getItem parseOrders = [])
      ∧ (∀ s xs, getItem "7dbappe_stores_db" = some s → s ≠ "" →
          parseStores s = some xs → getLocalStores getItem parseStores = xs)
      ∧ (getItem "7dbappe_stores_db" = none → getLocalStores getItem parseStores = [])
      ∧ (getItem "7dbappe_stores_db" = some "" →
          getLocalStores getItem parseStores = [])
      ∧ (∀ s, getItem "7dbappe_stores_db" = some s → parseStores s = none →
          getLocalStores getItem parseStores = []) := by
  refine ⟨?_, ?_, ?_, ?_, ?_, ?_, ?_, ?_⟩
  · intro s xs hg hs hp
    simp [getLocalOrders, hg, hs, hp]
  · intro hg
    simp [getLocalOrders, hg]
  · intro hg
    simp [getLocalOrders, hg]
  · intro s hg hp
    by_cases hs : s = ""
    · simp [getLocalOrders, hg, hs]
    · simp [getLocalOrders, hg, hs, hp]
  · intro s xs hg hs hp
    simp [getLocalStores, hg, hs, hp]
  · intro hg
    simp [getLocalStores, hg]
  · intro hg
    simp [getLocalStores, hg]
  · intro s hg hp
    by_cases hs : s = ""
    · simp [getLocalStores, hg, hs]
    · simp [getLocalStores, hg, hs, hp]

/-- Witness for `local_reads_total`: a corrupt orders entry (parse throws)
reads as `[]`, and a missing stores key reads as `[]`. -/
theorem local_reads_total_witness :
    getLocalOrders (fun k => if k = "7dbappe_orders_db" then some "not json" else none)
        (fun _ => none) = []
      ∧ getLocalStores (fun _ => none) (fun _ => some [fixedFeeStore]) = [] := by
  constructor
  · exact (local_reads_total
      (fun k => if k = "7dbappe_orders_db" then some "not json" else none)
      (fun _ => none) (fun _ => none)).2.2.2.1 "not json" (by simp) rfl
  · exact (local_reads_total (fun _ => none) (fun _ => none)
      (fun _ => some [fixedFeeStore])).2.2.2.2.2.1 rfl
